import Mathlib

/-!
Verification of the conversion pipeline of pyVid2Gif-Engine.

The repository is a Python video-to-GIF converter.  The pure logic lives in
`src/localvideo.py` (class `GifConverterLogic`, class `UILogger`) and
`src/cli.py` (`convert_video_to_gif_cli`).  This file shallowly embeds those
functions in Lean:

* Python floats are modelled as rationals (`ℚ`); none of the verified
  properties depend on floating-point rounding.
* Python strings used as paths are modelled as `List Char`; string library
  calls (`str.lower`, `str.endswith`) are given explicit definitions below.
* File-system facts (`os.path.exists`, file size) and the outcome of opening
  a video with the external media library are passed in as parameters, since
  they are environment queries rather than code of this repository.
* Raising `ValueError` / `FileNotFoundError` is modelled with `Except String`,
  the string being the exception message from the source.
-/

namespace Vid2Gif

/-- Boolean test that an `Except` computation succeeded. -/
def exOk {α : Type} : Except String α → Bool
  | .ok _ => true
  | .error _ => false

/-! ## Input validator (`GifConverterLogic.validate_inputs`, localvideo.py 23-42)

The Python body wraps the range check in the same `try` that performs the
`float(...)` conversion:

```
try:
    r_val = float(resize_percentage)
    if not (1 <= r_val <= 100):
         raise ValueError("Resize percentage must be between 1 and 100.")
    resize_val = r_val / 100.0
except ValueError:
     raise ValueError("Resize percentage must be a valid number.")
```

so the bound-specific `ValueError` raised inside the `try` is caught by the
`except ValueError` handler and replaced by the generic parse message.  The
embedding below reflects the message that actually escapes.  The claims under
study quantify over numeric inputs, for which `float(...)` succeeds, so the
embedding takes the numeric value directly. -/

/-- Resize branch of `validate_inputs`: range check then division by 100.
The escaping message for an out-of-range value is the generic one because the
inner `ValueError` is swallowed by the surrounding handler (see above). -/
def validateResize (r : ℚ) : Except String ℚ :=
  if 1 ≤ r ∧ r ≤ 100 then .ok (r / 100)
  else .error "Resize percentage must be a valid number."

/-- FPS branch of `validate_inputs`: `int(fps)` then positivity check; the
positivity `ValueError` is likewise replaced by the handler message.  The
claims quantify over already-numeric fps, so the embedding takes an integer. -/
def validateFps (fps : ℤ) : Except String ℤ :=
  if fps ≤ 0 then .error "FPS must be a valid integer."
  else .ok fps

/-- `GifConverterLogic.validate_inputs` on numeric inputs
(localvideo.py 23-42): validates resize percentage, then fps, returning
`(resize_val, fps_val)`. -/
def validate_inputs (r : ℚ) (fps : ℤ) : Except String (ℚ × ℤ) :=
  match validateResize r with
  | .error e => .error e
  | .ok rv =>
    match validateFps fps with
    | .error e => .error e
    | .ok fv => .ok (rv, fv)

/-! ## Time validator (`GifConverterLogic.validate_times`, localvideo.py 53-81) -/

/-- Inner `parse_time` of `validate_times` on a lexed field: `none` models the
empty/blank string, `some f` a string that parses as the float `f`.  A
negative value raises inside the `try`, so the escaping message is the
parse-failure one. -/
def parse_time (v : Option ℚ) : Except String (Option ℚ) :=
  match v with
  | none => .ok none
  | some f =>
    if f < 0 then .error "Start/End times must be numbers (seconds)."
    else .ok (some f)

/-- The clamp `max(0.0, min(t, duration))` applied to each present time when
the duration is known (localvideo.py 72-76). -/
def clampT (d t : ℚ) : ℚ := max 0 (min t d)

/-- `GifConverterLogic.validate_times` (localvideo.py 53-81): parse both
fields, clamp present values into `[0, duration]` when the duration is known,
then reject when both are present and end < start. -/
def validate_times (s0 e0 : Option ℚ) (duration : Option ℚ) :
    Except String (Option ℚ × Option ℚ) :=
  match parse_time s0 with
  | .error err => .error err
  | .ok s =>
    match parse_time e0 with
    | .error err => .error err
    | .ok e =>
      let s := match duration, s with
        | some d, some sv => some (clampT d sv)
        | _, _ => s
      let e := match duration, e with
        | some d, some ev => some (clampT d ev)
        | _, _ => e
      match s, e with
      | some sv, some ev =>
        if ev < sv then .error "End time must be greater than start time."
        else .ok (some sv, some ev)
      | _, _ => .ok (s, e)

/-! ## Path handling

Paths are lists of characters.  `str.lower` and `str.endswith` are embedded
directly; `os.path.join` on a directory and a relative file name is embedded
for the only shape the CLI uses (the second argument comes from
`os.path.basename`, hence never starts with a separator). -/

/-- `str.lower` on a path. -/
def pyLower (s : List Char) : List Char := s.map Char.toLower

/-- `str.endswith(suffix)`. -/
def pyEndsWith (s suf : List Char) : Bool := decide (suf <:+ s)

/-- The literal `".gif"`. -/
def gifSuffix : List Char := ".gif".toList

/-- The `.gif`-forcing normalization shared by
`GifConverterLogic.convert_video_to_gif` (localvideo.py 126-128) and
`convert_video_to_gif_cli` (cli.py 32-33):
`if not output_path.lower().endswith(".gif"): output_path += ".gif"`. -/
def ensureGif (p : List Char) : List Char :=
  if pyEndsWith (pyLower p) gifSuffix then p else p ++ gifSuffix

/-- `os.path.join(dir, name)` for a relative `name` (the only call shape in
this repository): `dir + "/" + name`, or `name` alone when `dir` is empty. -/
def osPathJoin (dir name : List Char) : List Char :=
  if dir = [] then name else dir ++ ['/'] ++ name

/-! ## Metadata reader (`GifConverterLogic.get_video_metadata`, localvideo.py 87-108) -/

/-- What the media library reports for an opened clip (`clip.size`,
`clip.duration`, `clip.fps`). -/
structure ClipInfo where
  width : ℚ
  height : ℚ
  duration : ℚ
  fps : ℚ
  deriving Repr, DecidableEq

/-- The metadata dictionary built on the success path. -/
structure VideoMetadata where
  size_mb : ℚ
  resolution : ℚ × ℚ
  duration : ℚ
  fps : ℚ
  deriving Repr, DecidableEq

/-- Outcome of `get_video_metadata`: the empty dictionary `{}`, a populated
dictionary, or a raised exception. -/
inductive MetaResult
  | empty
  | ok (m : VideoMetadata)
  | err (e : String)
  deriving Repr, DecidableEq

/-- Whether a `MetaResult` is a raised exception. -/
def MetaResult.isErr : MetaResult → Bool
  | .err _ => true
  | _ => false

/-- Python `round(x, 2)`.  Python rounds half to even; the claims under study
never depend on the tie case, so half-up rounding is used. -/
def round2 (x : ℚ) : ℚ := (round (x * 100) : ℤ) / 100

/-- `GifConverterLogic.get_video_metadata` (localvideo.py 87-108).
`path` is the argument; `pathExists` is the environment answer to
`os.path.exists`; `sizeBytes` the `os.path.getsize` result; `openClip` the
outcome of `VideoFileClip(video_path)` (an `Except` because opening a corrupt
file raises, which the `except Exception as e: raise e` re-raises).
For a falsy (empty) path or a nonexistent one, the source returns `{}`. -/
def get_video_metadata (path : List Char) (pathExists : Bool)
    (sizeBytes : ℚ) (openClip : Except String ClipInfo) : MetaResult :=
  if path = [] ∨ pathExists = false then .empty
  else
    match openClip with
    | .error e => .err e
    | .ok clip =>
      .ok { size_mb := round2 (sizeBytes / (1024 * 1024))
            resolution := (clip.width, clip.height)
            duration := round2 clip.duration
            fps := clip.fps }

/-! ## Backend selector (localvideo.py 157-162, cli.py 37-40) -/

/-- Backend choice of `convert_video_to_gif` (localvideo.py 157-162): the
returned flag records whether the fallback warning message
("FFmpeg not found. Falling back to imageio.") is emitted.  `ffmpegAvail` is
the environment answer to `shutil.which("ffmpeg") is not None`. -/
def choose_program (program : String) (ffmpegAvail : Bool) : String × Bool :=
  if program = "ffmpeg" ∧ ffmpegAvail = false then ("imageio", true)
  else (program, false)

/-! ## CLI entry point (`convert_video_to_gif_cli`, cli.py 15-41)

The pure prefix of the CLI conversion: existence check, output-path
derivation and normalization, resize clamping, backend fallback.  `videoDir`
and `videoBase` stand for `os.path.dirname(video_path)` and
`os.path.splitext(os.path.basename(video_path))[0]`, which are standard
library calls on the source path. -/

/-- The validated configuration the CLI hands to the media library. -/
structure CliSetup where
  output : List Char
  resize_val : ℚ
  use_program : String
  deriving Repr, DecidableEq

/-- `convert_video_to_gif_cli`, lines 25-40: everything before the clip is
opened.  Note the resize percentage is clamped, never validated:
`resize_val = max(1, min(resize_percentage, 100)) / 100.0`. -/
def convert_video_to_gif_cli (videoExists : Bool)
    (output? : Option (List Char)) (videoDir videoBase : List Char)
    (resize_percentage : ℤ) (program : String) (ffmpegAvail : Bool) :
    Except String CliSetup :=
  if videoExists = false then .error "Video not found"
  else
    let output := match output? with
      | none => osPathJoin videoDir (videoBase ++ gifSuffix)
      | some p => p
    let output := ensureGif output
    let resize_val : ℚ := ((max 1 (min resize_percentage 100) : ℤ) : ℚ) / 100
    let use_program := if program = "ffmpeg" ∧ ffmpegAvail = false
      then "imageio" else program
    .ok { output := output, resize_val := resize_val, use_program := use_program }

/-! ## Conversion pipeline clip algebra (localvideo.py 135-155, cli.py 42-56)

The resize and trim operations belong to the media library; the pipeline only
composes them.  The composition is embedded as a term algebra, so that the
order of operations (resize before trim) and the arguments passed to each are
visible in the result. -/

/-- A clip as built by the pipeline: the opened source, a resized clip, or a
trimmed (`subclip`/`subclipped`) clip. -/
inductive ClipExpr
  | source
  | resized (c : ClipExpr) (factor : ℚ)
  | subclipped (c : ClipExpr) (st et : ℚ)
  deriving Repr, DecidableEq

/-- Modelled library semantics of `clip.duration`: the source has the probed
duration, resizing preserves duration, a subclip `[st, et]` lasts `et - st`. -/
def ClipExpr.durationOf (srcDuration : ℚ) : ClipExpr → ℚ
  | .source => srcDuration
  | .resized c _ => c.durationOf srcDuration
  | .subclipped _ st et => et - st

/-- Whether the outermost pipeline step was a trim. -/
def ClipExpr.isTrimmed : ClipExpr → Bool
  | .subclipped _ _ _ => true
  | _ => false

/-- The clip built by `convert_video_to_gif` (localvideo.py 135-155) before
`write_gif`; `convert_video_to_gif_cli` (cli.py 42-56) builds the identical
composition.  Resize always happens; a trim is added only when a start or end
time was supplied, with `st = start_time or 0` and
`et = end_time or clip_resized.duration`. -/
def pipelineClip (srcDuration resize_val : ℚ)
    (start_time end_time : Option ℚ) : ClipExpr :=
  let clip_resized := ClipExpr.resized .source resize_val
  if start_time.isSome || end_time.isSome then
    let st := start_time.getD 0
    let et := end_time.getD (clip_resized.durationOf srcDuration)
    .subclipped clip_resized st et
  else clip_resized

/-! ## Progress bridge (`UILogger.callback`, localvideo.py 191-200)

Each tracked bar is a dictionary; `get('total')` / `get('index')` may be
absent (`none`).  The guard is `if total and index is not None`, so a present
but zero total is skipped by Python truthiness. -/

/-- The `index`/`total` fields of one tracked bar. -/
structure ProgressInfo where
  total : Option ℚ
  index : Option ℚ
  deriving Repr, DecidableEq

/-- The sequence of percentages `UILogger.callback` passes to
`progress_callback`, one per qualifying bar, in bar order
(localvideo.py 193-200). -/
def emittedPercents (bars : List ProgressInfo) : List ℚ :=
  bars.filterMap fun info =>
    match info.total, info.index with
    | some t, some i => if t ≠ 0 then some (i / t * 100) else none
    | _, _ => none

/-! ## Theorems -/

/-- Helper: the `.gif`-forcing normalization always yields a path whose
lowercased form ends in `".gif"`. -/
theorem ensureGif_endsWith (p : List Char) :
    pyEndsWith (pyLower (ensureGif p)) gifSuffix = true := by
  have hlow : List.map Char.toLower gifSuffix = gifSuffix := by decide
  cases h : pyEndsWith (pyLower p) gifSuffix with
  | true => simp [ensureGif, h]
  | false =>
    simp only [ensureGif, h, Bool.false_eq_true, if_false]
    simp only [pyEndsWith, pyLower, List.map_append, hlow, decide_eq_true_eq]
    exact List.suffix_append _ _

/-- C2: on a numeric resize percentage `r` (and a valid fps),
`validate_inputs` succeeds iff `r ∈ [1, 100]`, and on success the resize
component is the fraction `r / 100`. -/
theorem validate_resize_ok_iff_in_range (r : ℚ) (fps : ℤ) (hfps : 0 < fps) :
    (exOk (validate_inputs r fps) = true ↔ 1 ≤ r ∧ r ≤ 100) ∧
    (1 ≤ r → r ≤ 100 → validate_inputs r fps = .ok (r / 100, fps)) := by
  have hf : ¬ fps ≤ 0 := not_le.mpr hfps
  by_cases h : 1 ≤ r ∧ r ≤ 100
  · refine ⟨?_, fun _ _ => ?_⟩ <;>
      simp [validate_inputs, validateResize, validateFps, h, hf, exOk]
  · refine ⟨?_, fun h1 h2 => absurd ⟨h1, h2⟩ h⟩
    simp [validate_inputs, validateResize, h, exOk]

/-- Witness for `validate_resize_ok_iff_in_range` at `r = 50`, `fps = 15`. -/
theorem validate_resize_ok_iff_in_range_witness :
    (0 : ℤ) < 15 ∧
    ((exOk (validate_inputs 50 15) = true ↔ (1 : ℚ) ≤ 50 ∧ (50 : ℚ) ≤ 100) ∧
     ((1 : ℚ) ≤ 50 → (50 : ℚ) ≤ 100 → validate_inputs 50 15 = .ok (50 / 100, 15))) :=
  ⟨by decide, validate_resize_ok_iff_in_range 50 15 (by decide)⟩

/-- C3: for any integer resize percentage, the CLI entry point raises no
validation error: it clamps the value into `[1, 100]` and uses the fraction
`max(1, min(p, 100)) / 100`, which always lies in `[1/100, 1]`. -/
theorem cli_resize_never_raises_and_clamps
    (output? : Option (List Char)) (videoDir videoBase : List Char)
    (rp : ℤ) (program : String) (avail : Bool) :
    ∃ setup,
      convert_video_to_gif_cli true output? videoDir videoBase rp program avail
        = .ok setup ∧
      setup.resize_val = ((max 1 (min rp 100) : ℤ) : ℚ) / 100 ∧
      1 / 100 ≤ setup.resize_val ∧ setup.resize_val ≤ 1 := by
  refine ⟨_, rfl, rfl, ?_, ?_⟩ <;>
  · have h1 : (1 : ℤ) ≤ max 1 (min rp 100) := le_max_left _ _
    have h2 : max 1 (min rp 100) ≤ 100 := max_le (by norm_num) (min_le_right _ _)
    have h1q : (1 : ℚ) ≤ ((max 1 (min rp 100) : ℤ) : ℚ) := by exact_mod_cast h1
    have h2q : ((max 1 (min rp 100) : ℤ) : ℚ) ≤ 100 := by exact_mod_cast h2
    simp only [convert_video_to_gif_cli]
    linarith

/-- C4 counterexample: a value violating the lower bound (0) and one
violating the upper bound (101) produce the identical error message — the
generic parse message — so the message does not identify which bound was
violated. -/
theorem resize_error_message_identical_at_both_bounds :
    validate_inputs 0 15 = .error "Resize percentage must be a valid number." ∧
    validate_inputs 101 15 = .error "Resize percentage must be a valid number." := by
  exact ⟨by rfl, by rfl⟩

/-- C4 amended: every out-of-range resize percentage raises a `ValueError`
whose message is the generic "Resize percentage must be a valid number."
(the bound-specific message raised inside the `try` is caught by the
`except ValueError` handler), for both bounds alike. -/
theorem resize_out_of_range_generic_message (r : ℚ) (fps : ℤ)
    (h : r < 1 ∨ 100 < r) :
    validate_inputs r fps = .error "Resize percentage must be a valid number." := by
  have hnot : ¬ (1 ≤ r ∧ r ≤ 100) := by
    rcases h with h | h
    · exact fun hc => absurd hc.1 (not_le.mpr h)
    · exact fun hc => absurd hc.2 (not_le.mpr h)
  simp [validate_inputs, validateResize, hnot]

/-- Witness for `resize_out_of_range_generic_message` at `r = 0`. -/
theorem resize_out_of_range_generic_message_witness :
    ((0 : ℚ) < 1 ∨ (100 : ℚ) < 0) ∧
    validate_inputs 0 15 = .error "Resize percentage must be a valid number." :=
  ⟨Or.inl (by norm_num),
   resize_out_of_range_generic_message 0 15 (Or.inl (by norm_num))⟩

/-- C5 counterexample: with end time equal to start time (both 1 second, no
known duration), `validate_times` succeeds — equality is not rejected. -/
theorem end_equal_start_accepted :
    validate_times (some 1) (some 1) none = .ok (some 1, some 1) := by
  rfl

/-- C5 amended: with both times present (and nonnegative, as parsing
requires) and no known duration, `validate_times` succeeds iff start ≤ end:
only end strictly below start is rejected, end equal to start is accepted. -/
theorem times_ok_iff_start_le_end (s e : ℚ) (hs : 0 ≤ s) (he : 0 ≤ e) :
    exOk (validate_times (some s) (some e) none) = true ↔ s ≤ e := by
  have hs' : ¬ s < 0 := not_lt.mpr hs
  have he' : ¬ e < 0 := not_lt.mpr he
  by_cases h : e < s
  · simp [validate_times, parse_time, hs', he', h, exOk, not_le.mpr h]
  · simp [validate_times, parse_time, hs', he', h, exOk, not_lt.mp h]

/-- Witness for `times_ok_iff_start_le_end` at `s = e = 1`. -/
theorem times_ok_iff_start_le_end_witness :
    (0 : ℚ) ≤ 1 ∧ (0 : ℚ) ≤ 1 ∧
    (exOk (validate_times (some 1) (some 1) none) = true ↔ (1 : ℚ) ≤ 1) :=
  ⟨by norm_num, by norm_num,
   times_ok_iff_start_le_end 1 1 (by norm_num) (by norm_num)⟩

/-- C7: when the caller requests the "ffmpeg" backend and no ffmpeg
executable is on the search path, the pipeline substitutes "imageio" and
emits the fallback warning; the CLI does the same and the conversion setup
still succeeds. -/
theorem ffmpeg_missing_falls_back_to_imageio
    (output? : Option (List Char)) (videoDir videoBase : List Char) (rp : ℤ) :
    choose_program "ffmpeg" false = ("imageio", true) ∧
    ∃ setup,
      convert_video_to_gif_cli true output? videoDir videoBase rp "ffmpeg" false
        = .ok setup ∧
      setup.use_program = "imageio" := by
  exact ⟨by rfl, ⟨_, rfl, by rfl⟩⟩

/-- C1 counterexample: for a nonexistent source path the metadata reader
returns the empty dictionary — it does not fail with an error. -/
theorem metadata_missing_path_returns_empty_dict :
    get_video_metadata ['v'] false 100 (.error "could not open") = .empty ∧
    (get_video_metadata ['v'] false 100 (.error "could not open")).isErr
      = false := by
  exact ⟨by rfl, by rfl⟩

/-- C1 amended: for a missing (or empty) source path `get_video_metadata`
returns the empty metadata dictionary, with no fields present, rather than
raising; only for a path that exists but cannot be opened is the decode
error propagated to the caller. -/
theorem metadata_empty_on_missing_error_on_decode
    (path : List Char) (sizeBytes : ℚ) (e : String) (hpath : path ≠ []) :
    (∀ openClip, get_video_metadata path false sizeBytes openClip = .empty) ∧
    (∀ openClip, get_video_metadata [] false sizeBytes openClip = .empty) ∧
    get_video_metadata path true sizeBytes (.error e) = .err e := by
  refine ⟨fun openClip => ?_, fun openClip => ?_, ?_⟩
  · simp [get_video_metadata]
  · simp [get_video_metadata]
  · simp [get_video_metadata, hpath]

/-- Witness for `metadata_empty_on_missing_error_on_decode` at the path
`"v"`. -/
theorem metadata_empty_on_missing_error_on_decode_witness :
    (['v'] : List Char) ≠ [] ∧
    ((∀ openClip, get_video_metadata ['v'] false 5 openClip = .empty) ∧
     (∀ openClip, get_video_metadata [] false 5 openClip = .empty) ∧
     get_video_metadata ['v'] true 5 (.error "x") = .err "x") :=
  ⟨by decide, metadata_empty_on_missing_error_on_decode ['v'] 5 "x" (by decide)⟩

/-- C6: with a known nonnegative duration and nonnegative present inputs,
`validate_times` clamps each present time into `[0, duration]`, fails iff
both times are present and the clamped end is below the clamped start, and
otherwise returns the clamped pair. -/
theorem validate_times_clamps_then_checks (s0 e0 : Option ℚ) (d : ℚ)
    (hd : 0 ≤ d)
    (hs : ∀ x, s0 = some x → 0 ≤ x)
    (he : ∀ x, e0 = some x → 0 ≤ x) :
    (exOk (validate_times s0 e0 (some d)) = false ↔
       ∃ sv ev, s0 = some sv ∧ e0 = some ev ∧ clampT d ev < clampT d sv) ∧
    (exOk (validate_times s0 e0 (some d)) = true →
       validate_times s0 e0 (some d)
         = .ok (s0.map (clampT d), e0.map (clampT d))) ∧
    (∀ x, 0 ≤ clampT d x ∧ clampT d x ≤ d) := by
  have hclamp : ∀ x, 0 ≤ clampT d x ∧ clampT d x ≤ d := fun x =>
    ⟨le_max_left _ _, max_le hd (min_le_right _ _)⟩
  refine ⟨?_, ?_, hclamp⟩ <;>
  · match s0, e0 with
    | none, none =>
      simp [validate_times, parse_time, exOk]
    | some sv, none =>
      have hsv : ¬ sv < 0 := not_lt.mpr (hs sv rfl)
      simp [validate_times, parse_time, hsv, exOk]
    | none, some ev =>
      have hev : ¬ ev < 0 := not_lt.mpr (he ev rfl)
      simp [validate_times, parse_time, hev, exOk]
    | some sv, some ev =>
      have hsv : ¬ sv < 0 := not_lt.mpr (hs sv rfl)
      have hev : ¬ ev < 0 := not_lt.mpr (he ev rfl)
      by_cases hlt : clampT d ev < clampT d sv
      · simp [validate_times, parse_time, hsv, hev, hlt, exOk]
      · simp [validate_times, parse_time, hsv, hev, hlt, exOk]

/-- Witness for `validate_times_clamps_then_checks` at
`start = 2, end = 9, duration = 5` (the end time is clamped to 5). -/
theorem validate_times_clamps_then_checks_witness :
    validate_times (some 2) (some 9) (some 5) = .ok (some 2, some 5) := by
  have h := (validate_times_clamps_then_checks (some 2) (some 9) 5
    (by norm_num)
    (fun x hx => by cases hx; norm_num)
    (fun x hx => by cases hx; norm_num)).2.1 (by rfl)
  simpa [clampT] using h

/-- C8: every output path, after the pipeline's normalization, ends
(case-insensitively) in `".gif"`; and the CLI — whether the caller supplied
a path or the default is derived from the source base name — always
produces such a path. -/
theorem output_path_always_ends_in_gif :
    (∀ p : List Char, pyEndsWith (pyLower (ensureGif p)) gifSuffix = true) ∧
    (∀ (output? : Option (List Char)) (videoDir videoBase : List Char)
       (rp : ℤ) (program : String) (avail : Bool),
       ∃ setup,
         convert_video_to_gif_cli true output? videoDir videoBase rp program avail
           = .ok setup ∧
         pyEndsWith (pyLower setup.output) gifSuffix = true) :=
  ⟨fun p => ensureGif_endsWith p,
   fun _ _ _ _ _ _ => ⟨_, rfl, ensureGif_endsWith _⟩⟩

/-- C9: the pipeline trims iff a start or end time was supplied; when it
does, the trim is taken over the resized clip, a missing start defaults to
0 and a missing end to the resized clip's full duration (which equals the
source duration, since resizing preserves duration). -/
theorem trim_applied_iff_time_supplied (d f : ℚ) (s e : Option ℚ) :
    ((pipelineClip d f s e).isTrimmed = (s.isSome || e.isSome)) ∧
    (s.isSome ∨ e.isSome →
       pipelineClip d f s e
         = .subclipped (.resized .source f) (s.getD 0) (e.getD d)) ∧
    (s = none → e = none → pipelineClip d f s e = .resized .source f) := by
  cases s <;> cases e <;>
    simp [pipelineClip, ClipExpr.isTrimmed, ClipExpr.durationOf]

/-- Witness for `trim_applied_iff_time_supplied`: source of duration 10,
resize factor 1/2, start 2 supplied, end absent — the pipeline trims the
resized clip over `[2, 10]`. -/
theorem trim_applied_iff_time_supplied_witness :
    pipelineClip 10 (1 / 2) (some 2) none
      = .subclipped (.resized .source (1 / 2)) 2 10 :=
  (trim_applied_iff_time_supplied 10 (1 / 2) (some 2) none).2.1
    (Or.inl rfl)

/-- C10: a percentage is emitted by the progress bridge iff some tracked bar
has both a total (nonzero, by Python truthiness) and an index present, and
the value emitted for such a bar is exactly `(index / total) * 100`. -/
theorem percent_emitted_iff_total_and_index_present
    (bars : List ProgressInfo) (p : ℚ) :
    p ∈ emittedPercents bars ↔
      ∃ info ∈ bars, ∃ t i, info.total = some t ∧ info.index = some i ∧
        t ≠ 0 ∧ p = i / t * 100 := by
  simp only [emittedPercents, List.mem_filterMap]
  constructor
  · rintro ⟨info, hmem, hf⟩
    match ht : info.total, hi : info.index with
    | none, _ => rw [ht] at hf; simp at hf
    | some t, none => rw [ht, hi] at hf; simp at hf
    | some t, some i =>
      rw [ht, hi] at hf
      by_cases h0 : t = 0
      · simp [h0] at hf
      · simp only [h0, ne_eq, not_false_eq_true, if_true] at hf
        exact ⟨info, hmem, t, i, ht, hi, h0, (Option.some_inj.mp hf).symm⟩
  · rintro ⟨info, hmem, t, i, ht, hi, h0, rfl⟩
    exact ⟨info, hmem, by simp [ht, hi, h0]⟩

end Vid2Gif
